import Mathlib

/-!
Verification of the CRM web application (`app.py`) against its
natural-language specification.

The application state is modelled shallowly:

* Python naive `datetime` values are minutes on a linear scale
  (`Nat`); `datetime.now()` becomes an explicit `now` parameter, and
  `timedelta(days=14)` is `14 * minutesPerDay`.
* The two database tables (`customers`, `users`) are Lean lists of
  records; `Query.get(id)` is a first-match lookup on the primary key.
* Each Flask request handler becomes a pure function from the session,
  the form inputs and the current store to an `Outcome` (what the
  handler answers) together with the store after its commit.  An
  unhandled Python exception (`AttributeError` on a missing record,
  `ValueError` from `strptime`, `IntegrityError` from the UNIQUE
  constraint) is the outcome `Outcome.crash`, and in that case the
  persisted store is unchanged because `db.session.commit()` is never
  reached (or is rolled back).
-/

namespace CRM

/-! ## Dates and times -/

/-- Model granularity of a Python naive `datetime`: minutes. -/
def minutesPerDay : Nat := 1440

/-- The calendar day of a datetime; two datetimes render to the same
`strftime("%Y-%m-%d")` string exactly when their days coincide. -/
def dateOf (t : Nat) : Nat := t / minutesPerDay

/-- Gregorian leap-year test, as in Python `calendar.isleap`. -/
def isLeap (y : Nat) : Bool :=
  (y % 4 == 0 && y % 100 != 0) || y % 400 == 0

/-- Number of days of month `m` (1-12) in year `y`. -/
def daysInMonth (y m : Nat) : Nat :=
  if m == 2 then (if isLeap y then 29 else 28)
  else if m == 4 || m == 6 || m == 9 || m == 11 then 30
  else 31

/-- Days from 0001-01-01 up to January 1 of year `y` (proleptic
Gregorian, as used by Python `date.toordinal`). -/
def daysBeforeYear (y : Nat) : Nat :=
  let n := y - 1
  n * 365 + n / 4 - n / 100 + n / 400

/-- Days of year `y` that precede month `m`. -/
def daysBeforeMonth (y m : Nat) : Nat :=
  (List.range (m - 1)).foldl (fun acc i => acc + daysInMonth y (i + 1)) 0

/-- Day number of the calendar date `y/m/d` (0 for 0001-01-01). -/
def toOrdinal (y m d : Nat) : Nat :=
  daysBeforeYear y + daysBeforeMonth y m + (d - 1)

/-- A whitespace character as Python `str.strip()` removes them
(restricted to the ASCII whitespace characters). -/
def isSpace (c : Char) : Bool :=
  c == ' ' || c == '\t' || c == '\n' || c == '\r' ||
  c == '\x0b' || c == '\x0c'

/-- Python `str.strip()`: remove leading and trailing whitespace. -/
def pyStrip (s : String) : String :=
  ⟨((s.toList.dropWhile isSpace).reverse.dropWhile isSpace).reverse⟩

/-- Split a character list at every occurrence of `sep` (the behaviour
of matching the literal `/` separators of the date format). -/
def splitOnChar (sep : Char) : List Char → List (List Char)
  | [] => [[]]
  | c :: cs =>
    if c == sep then [] :: splitOnChar sep cs
    else match splitOnChar sep cs with
      | [] => [[c]]
      | h :: t => (c :: h) :: t

/-- A non-empty all-digit field. -/
def digitsOnly (l : List Char) : Bool :=
  !l.isEmpty && l.all Char.isDigit

/-- Numeric value of a digit field. -/
def digitsToNat (l : List Char) : Nat :=
  l.foldl (fun acc c => acc * 10 + (c.toNat - 48)) 0

/-- Python `datetime.strptime(s, "%Y/%m/%d")`: exactly four digits of
year (at least 0001), one or two digits of month (1-12) and of day
(valid for the month), separated by literal slashes, nothing else; the
result is the midnight of that calendar date.  A string that does not
match raises `ValueError`, modelled by `none`. -/
def strptimeYMD (s : String) : Option Nat :=
  match splitOnChar '/' s.toList with
  | [ys, ms, ds] =>
    if digitsOnly ys && digitsOnly ms && digitsOnly ds
        && ys.length == 4 && decide (ms.length ≤ 2)
        && decide (ds.length ≤ 2) then
      let y := digitsToNat ys
      let m := digitsToNat ms
      let d := digitsToNat ds
      if 1 ≤ y ∧ 1 ≤ m ∧ m ≤ 12 ∧ 1 ≤ d ∧ d ≤ daysInMonth y m then
        some (toOrdinal y m d * minutesPerDay)
      else none
    else none
  | _ => none

/-! ## Data model (tables `customers` and `users`, and the session) -/

/-- A row of the `customers` table. -/
structure Client where
  id : Nat
  name : String
  house_address : String
  register_address : String
  first_contact : Nat
  next_follow : Nat
  notes : String
  user_id : Nat
deriving DecidableEq

/-- A row of the `users` table.  `password_hash` holds the output of
the (salted, hence abstract) hash function that every operation takes
as a parameter `hashPw`. -/
structure User where
  id : Nat
  username : String
  password_hash : String
  employee_id : String
  role : String
deriving DecidableEq

/-- The Flask session established by `login`. -/
structure Session where
  user_id : Nat
  username : String
  employee_id : String
  role : String
deriving DecidableEq

/-- What a handler answers.  The first five constructors are the
responses `app.py` actually produces (`redirect(...)`, the plain-text
permission denials, the `user_add.html` re-render with an error, the
plain messages of `/create_admin`, and an unhandled exception).  The
last two, `notFound` and `validationError`, are the structured errors
named by the specification; no handler of this program returns them,
and they are declared here so that statements about them can be
expressed. -/
inductive Outcome where
  | redirect (target : String)
  | forbidden (msg : String)
  | renderError (msg : String)
  | message (msg : String)
  | crash
  | notFound
  | validationError
deriving DecidableEq

/-- Replace the first element satisfying `p` by its image under `f`
(SQLAlchemy mutates the single object returned by `Query.get`). -/
def updateFirst {α : Type} (p : α → Bool) (f : α → α) : List α → List α
  | [] => []
  | u :: us => if p u then f u :: us else u :: updateFirst p f us

/-- `Client.query.get(id)`: primary-key lookup. -/
def getClient (store : List Client) (id : Nat) : Option Client :=
  store.find? (fun c => c.id == id)

/-- `User.query.get(id)`: primary-key lookup. -/
def getUser (store : List User) (id : Nat) : Option User :=
  store.find? (fun u => u.id == id)

/-! ## Client handlers (`/add`, `/edit/<id>`, `/delete/<id>`, `/list`) -/

/-- POST `/add` (`add_client`): captures `now`, parses the stripped
`next_follow` field (empty means `now + timedelta(days=14)`, otherwise
`strptime(..., "%Y/%m/%d")`, whose failure is an unhandled
`ValueError`), collapses an identical address pair to the sentinel
`"同左"`, and inserts the new row owned by the session user.
`freshId` is the primary key the database assigns. -/
def addClient (sess : Session)
    (name house_address register_address notes next_follow : String)
    (now : Nat) (freshId : Nat) (store : List Client) :
    Outcome × List Client :=
  match (if pyStrip next_follow = "" then some (now + 14 * minutesPerDay)
         else strptimeYMD (pyStrip next_follow)) with
  | none => (.crash, store)
  | some next_time =>
    (.redirect "/list", store ++
      [{ id := freshId
         name := name
         house_address := house_address
         register_address := if pyStrip house_address = pyStrip register_address
           then "同左" else register_address
         first_contact := now
         next_follow := next_time
         notes := notes
         user_id := sess.user_id }])

/-- POST `/edit/<id>` (`edit_client`): on a missing id the handler
dereferences `None` (in the ownership check for non-admins, in the
field assignments for admins) and crashes.  Otherwise it denies
non-owners, overwrites the text fields, re-parses a non-empty stripped
`next_follow` (empty leaves the stored value), applies the
same-address sentinel to the new addresses, and commits.  The record's
`id`, `first_contact` and `user_id` are never assigned. -/
def editClient (sess : Session) (id : Nat)
    (name house_address register_address notes next_follow : String)
    (store : List Client) : Outcome × List Client :=
  match getClient store id with
  | none => (.crash, store)
  | some client =>
    if sess.role ≠ "admin" ∧ client.user_id ≠ sess.user_id then
      (.forbidden "⛔ 你沒有權限編輯這筆資料", store)
    else
      match (if pyStrip next_follow = "" then some client.next_follow
             else strptimeYMD (pyStrip next_follow)) with
      | none => (.crash, store)
      | some next_time =>
        (.redirect "/list",
          updateFirst (fun c => c.id == id)
            (fun _ => { client with
              name := name
              house_address := house_address
              register_address := if pyStrip house_address = pyStrip register_address
                then "同左" else register_address
              notes := notes
              next_follow := next_time }) store)

/-- GET `/delete/<id>` (`delete_client`): on a missing id the handler
dereferences `None` (for non-admins) or passes `None` to
`db.session.delete` (for admins) and crashes; otherwise it denies
non-owners and deletes the row returned by `Query.get`. -/
def deleteClient (sess : Session) (id : Nat) (store : List Client) :
    Outcome × List Client :=
  match getClient store id with
  | none => (.crash, store)
  | some c =>
    if sess.role ≠ "admin" ∧ c.user_id ≠ sess.user_id then
      (.forbidden "⛔ 你沒有權限刪除這筆資料", store)
    else
      (.redirect "/list", store.eraseP (fun x => x.id == id))

/-- Lines 217-220 of `app.py`: the base query of `/list` is every row
for an admin session and the session user's own rows otherwise. -/
def baseQuery (sess : Session) (store : List Client) : List Client :=
  if sess.role = "admin" then store
  else store.filter (fun c => c.user_id == sess.user_id)

/-- One `LIKE "%kw%"` disjunct: substring containment.  (Wildcard
characters inside the user keyword itself are not modelled; the
specification describes the filter as substring containment.) -/
def likeContains (kw s : String) : Bool :=
  decide (List.IsInfix kw.toList s.toList)

/-- The four-column `LIKE` disjunction of `/list`. -/
def matchesSearch (search : String) (c : Client) : Bool :=
  likeContains search c.name || likeContains search c.house_address ||
  likeContains search c.register_address || likeContains search c.notes

/-- The keyword stage of `/list`: applied only when the stripped `q`
parameter is non-empty. -/
def searchFilter (q : String) (l : List Client) : List Client :=
  if pyStrip q = "" then l else l.filter (matchesSearch (pyStrip q))

/-- GET `/list` (`list_clients`): role-scoped base set, then the
keyword filter, then — when `today=1` — the rows whose next-follow-up
day equals the day of `now`. -/
def listClients (sess : Session) (q : String) (todayFlag : Bool)
    (now : Nat) (store : List Client) : List Client :=
  if todayFlag then
    (searchFilter q (baseQuery sess store)).filter
      (fun c => dateOf c.next_follow == dateOf now)
  else searchFilter q (baseQuery sess store)

/-! ## User handlers (`/users/...`, `/create_admin`) -/

/-- The usernames column of the `users` table. -/
def usernames (us : List User) : List String :=
  us.map (fun u => u.username)

/-- POST `/users/add` (`add_user`): admin-only; a username that
already exists re-renders the form with the error `"此帳號已存在"`
and stores nothing; otherwise the new row is inserted. -/
def addUser (hashPw : String → String) (sess : Session)
    (username password employee_id role : String) (freshId : Nat)
    (store : List User) : Outcome × List User :=
  if sess.role ≠ "admin" then (.forbidden "⛔ 只有管理員可以新增員工", store)
  else match store.find? (fun u => u.username == username) with
    | some _ => (.renderError "此帳號已存在", store)
    | none =>
      let u : User :=
        { id := freshId
          username := username
          password_hash := hashPw password
          employee_id := employee_id
          role := role }
      (.redirect "/users", store ++ [u])

/-- `db.session.commit()` on the `users` table.  The `username`
column is declared `unique=True` (line 39 of `app.py`), so a commit
that would leave two rows with the same username raises
`IntegrityError`: the request crashes and the persisted table keeps
its previous contents. -/
def commitUsers (old new : List User) : Outcome × List User :=
  if (usernames new).Nodup then (.redirect "/users", new)
  else (.crash, old)

/-- POST `/users/edit/<id>` (`edit_user`): admin-only; a missing id
crashes on the `None` dereference.  The handler overwrites username,
employee id and role without any application-level uniqueness check,
rotates the password hash only for a non-empty stripped new password,
and commits (which enforces the UNIQUE username column). -/
def editUser (hashPw : String → String) (sess : Session) (id : Nat)
    (username employee_id role password : String)
    (store : List User) : Outcome × List User :=
  if sess.role ≠ "admin" then (.forbidden "⛔ 只有管理員可以編輯員工", store)
  else match getUser store id with
  | none => (.crash, store)
  | some user =>
    commitUsers store (updateFirst (fun u => u.id == id)
      (fun _ => { user with
        username := username
        employee_id := employee_id
        role := role
        password_hash := if pyStrip password ≠ "" then hashPw (pyStrip password)
                         else user.password_hash }) store)

/-- GET `/users/delete/<id>` (`delete_user`): admin-only; deleting
oneself is denied; a missing id crashes (`db.session.delete(None)`
raises); otherwise the row is deleted. -/
def deleteUser (sess : Session) (id : Nat) (store : List User) :
    Outcome × List User :=
  if sess.role ≠ "admin" then (.forbidden "⛔ 只有管理員可以刪除員工", store)
  else if id = sess.user_id then (.forbidden "⛔ 無法刪除自己", store)
  else match getUser store id with
    | none => (.crash, store)
    | some _ => (.redirect "/users", store.eraseP (fun u => u.id == id))

/-- The fixed administrator row that `/create_admin` inserts. -/
def adminRecord (hashPw : String → String) (freshId : Nat) : User :=
  { id := freshId
    username := "admin"
    password_hash := hashPw "123456"
    employee_id := "A000"
    role := "admin" }

/-- GET `/create_admin` (`create_admin`): if a user named `"admin"`
exists, answer `"管理員已存在！"` and change nothing; otherwise insert
the fixed administrator account. -/
def createAdmin (hashPw : String → String) (freshId : Nat)
    (store : List User) : Outcome × List User :=
  match store.find? (fun u => u.username == "admin") with
  | some _ => (.message "管理員已存在！", store)
  | none =>
    (.message "管理員帳號已建立： admin / 123456",
      store ++ [adminRecord hashPw freshId])

/-! ## Helper lemmas -/

theorem mem_updateFirst {α : Type} {p : α → Bool} {f : α → α}
    {l : List α} {x : α} (h : x ∈ updateFirst p f l) :
    x ∈ l ∨ ∃ v ∈ l, x = f v := by
  induction l with
  | nil => simp [updateFirst] at h
  | cons u us ih =>
    by_cases hp : p u
    · simp [updateFirst, hp] at h
      rcases h with h | h
      · exact Or.inr ⟨u, List.mem_cons_self u us, h⟩
      · exact Or.inl (List.mem_cons_of_mem u h)
    · simp [updateFirst, hp] at h
      rcases h with h | h
      · exact Or.inl (h ▸ List.mem_cons_self u us)
      · rcases ih h with h | ⟨v, hv, hx⟩
        · exact Or.inl (List.mem_cons_of_mem u h)
        · exact Or.inr ⟨v, List.mem_cons_of_mem u hv, hx⟩

theorem map_updateFirst_of_find? {α β : Type} {p : α → Bool} {f : α → α}
    {g : α → β} {l : List α} {a : α} (hfind : l.find? p = some a)
    (hg : g (f a) = g a) : (updateFirst p f l).map g = l.map g := by
  induction l with
  | nil => simp at hfind
  | cons u us ih =>
    by_cases hp : p u
    · rw [List.find?_cons_of_pos _ hp, Option.some_inj] at hfind
      subst hfind
      simp [updateFirst, hp, hg]
    · rw [List.find?_cons_of_neg _ (by simp [hp])] at hfind
      simp [updateFirst, hp, ih hfind]

theorem mem_searchFilter {q : String} {l : List Client} {c : Client}
    (h : c ∈ searchFilter q l) : c ∈ l := by
  unfold searchFilter at h
  split at h
  · exact h
  · exact List.mem_of_mem_filter h

theorem mem_baseQuery_of_nonadmin {sess : Session} {store : List Client}
    {c : Client} (hrole : sess.role ≠ "admin")
    (h : c ∈ baseQuery sess store) : c.user_id = sess.user_id := by
  unfold baseQuery at h
  rw [if_neg hrole] at h
  have := List.of_mem_filter h
  simpa using this

/-! ## Sample data used by witnesses and counterexamples -/

/-- A stand-in for the salted hash function (its exact values are
irrelevant to every claim). -/
def plainHash (s : String) : String := s

def adminSession : Session :=
  { user_id := 1, username := "admin", employee_id := "A000", role := "admin" }

def bobSession : Session :=
  { user_id := 2, username := "bob", employee_id := "E001", role := "user" }

def clientOfBob : Client :=
  { id := 1, name := "wang", house_address := "addr one"
    register_address := "同左", first_contact := 0
    next_follow := 20160, notes := "", user_id := 2 }

def clientOfCarol : Client :=
  { id := 2, name := "chen", house_address := "addr two"
    register_address := "other addr", first_contact := 100
    next_follow := 300, notes := "hot lead", user_id := 3 }

def bobUser : User :=
  { id := 2, username := "bob", password_hash := "x"
    employee_id := "E001", role := "user" }

def carolUser : User :=
  { id := 3, username := "carol", password_hash := "y"
    employee_id := "E002", role := "user" }

/-! ## Claim C1 -/

/-- Claim C1: for every session, `list_clients` on a non-admin session
returns only clients whose owner (`user_id`) equals the session's user
id, and on an admin session its base set includes every client in the
store. -/
theorem list_clients_ownership_scope (sess : Session) (q : String)
    (todayFlag : Bool) (now : Nat) (store : List Client) :
    (sess.role ≠ "admin" →
      ∀ c ∈ listClients sess q todayFlag now store,
        c.user_id = sess.user_id) ∧
    (sess.role = "admin" → baseQuery sess store = store) := by
  constructor
  · intro hrole c hc
    have hbase : c ∈ baseQuery sess store := by
      unfold listClients at hc
      split at hc
      · exact mem_searchFilter (List.mem_of_mem_filter hc)
      · exact mem_searchFilter hc
    exact mem_baseQuery_of_nonadmin hrole hbase
  · intro hrole
    unfold baseQuery
    rw [if_pos hrole]

/-- Concrete instance of the claim C1 theorem: user bob only sees his
own client, an admin's base set is the whole table. -/
theorem list_clients_ownership_scope_witness :
    (bobSession.role ≠ "admin" ∧
      ∀ c ∈ listClients bobSession "" false 0 [clientOfBob, clientOfCarol],
        c.user_id = bobSession.user_id) ∧
    (adminSession.role = "admin" ∧
      baseQuery adminSession [clientOfBob, clientOfCarol]
        = [clientOfBob, clientOfCarol]) :=
  ⟨⟨by decide,
    (list_clients_ownership_scope bobSession "" false 0
      [clientOfBob, clientOfCarol]).1 (by decide)⟩,
   ⟨by decide,
    (list_clients_ownership_scope adminSession "" false 0
      [clientOfBob, clientOfCarol]).2 (by decide)⟩⟩

/-! ## Claim C2 -/

/-- Claim C2: after `create_client` or `update_client` completes, any
record they produced whose house address (stripped) equals the
submitted registered address (stripped) stores the sentinel `"同左"`
as its registered address, never the duplicate text; for a create with
an empty follow-up field the inserted record is exhibited explicitly. -/
theorem same_address_sentinel (sess : Session) (id : Nat)
    (name house_address register_address notes next_follow : String)
    (now freshId : Nat) (store : List Client)
    (hs : pyStrip house_address = pyStrip register_address) :
    (∀ c ∈ (addClient sess name house_address register_address notes
        next_follow now freshId store).2,
      c ∈ store ∨ c.register_address = "同左") ∧
    (∀ c ∈ (editClient sess id name house_address register_address notes
        next_follow store).2,
      c ∈ store ∨ c.register_address = "同左") ∧
    (pyStrip next_follow = "" →
      ∃ c, (addClient sess name house_address register_address notes
          next_follow now freshId store).2 = store ++ [c] ∧
        c.register_address = "同左") := by
  refine ⟨?_, ?_, ?_⟩
  · intro c hc
    simp only [addClient] at hc
    split at hc
    · exact Or.inl hc
    · rw [List.mem_append] at hc
      rcases hc with hc | hc
      · exact Or.inl hc
      · right
        rw [List.mem_singleton] at hc
        subst hc
        simp [hs]
  · intro c hc
    simp only [editClient] at hc
    split at hc
    · exact Or.inl hc
    · split at hc
      · exact Or.inl hc
      · split at hc
        · exact Or.inl hc
        · rcases mem_updateFirst hc with h | ⟨v, _, hv⟩
          · exact Or.inl h
          · right
            subst hv
            simp [hs]
  · intro he
    refine ⟨{ id := freshId
              name := name
              house_address := house_address
              register_address := "同左"
              first_contact := now
              next_follow := now + 14 * minutesPerDay
              notes := notes
              user_id := sess.user_id }, ?_, rfl⟩
    simp [addClient, he, hs]

/-- Concrete instance of the claim C2 theorem: creating a client whose
registered address differs from the house address only by whitespace
stores the sentinel. -/
theorem same_address_sentinel_witness :
    pyStrip "addr one" = pyStrip " addr one" ∧
    ((∀ c ∈ (addClient bobSession "wang" "addr one" " addr one" "" ""
        0 7 [clientOfBob]).2,
      c ∈ [clientOfBob] ∨ c.register_address = "同左") ∧
    (∀ c ∈ (editClient bobSession 1 "wang" "addr one" " addr one" ""
        "" [clientOfBob]).2,
      c ∈ [clientOfBob] ∨ c.register_address = "同左") ∧
    (pyStrip "" = "" →
      ∃ c, (addClient bobSession "wang" "addr one" " addr one" "" ""
          0 7 [clientOfBob]).2 = [clientOfBob] ++ [c] ∧
        c.register_address = "同左")) :=
  ⟨by decide,
   same_address_sentinel bobSession 1 "wang" "addr one" " addr one" ""
     "" 0 7 [clientOfBob] (by decide)⟩

/-! ## Claim C3 -/

/-- Claim C3: a `create_client` call whose `next_follow` parameter is
empty after stripping inserts a record whose `next_follow` is exactly
`first_contact + 14` days, where `first_contact` is the `now`
timestamp captured at creation. -/
theorem create_default_follow_up (sess : Session)
    (name house_address register_address notes next_follow : String)
    (now freshId : Nat) (store : List Client)
    (he : pyStrip next_follow = "") :
    ∃ c, (addClient sess name house_address register_address notes
        next_follow now freshId store).2 = store ++ [c] ∧
      c.first_contact = now ∧
      c.next_follow = c.first_contact + 14 * minutesPerDay := by
  refine ⟨{ id := freshId
            name := name
            house_address := house_address
            register_address := if pyStrip house_address = pyStrip register_address
              then "同左" else register_address
            first_contact := now
            next_follow := now + 14 * minutesPerDay
            notes := notes
            user_id := sess.user_id }, ?_, rfl, rfl⟩
  simp [addClient, he]

/-- Concrete instance of the claim C3 theorem. -/
theorem create_default_follow_up_witness :
    pyStrip "  " = "" ∧
    ∃ c, (addClient bobSession "wang" "a" "b" "memo" "  " 500 7
        [clientOfCarol]).2 = [clientOfCarol] ++ [c] ∧
      c.first_contact = 500 ∧
      c.next_follow = c.first_contact + 14 * minutesPerDay :=
  ⟨by decide,
   create_default_follow_up bobSession "wang" "a" "b" "memo" "  " 500 7
     [clientOfCarol] (by decide)⟩

/-! ## Claim C4 -/

/-- Claim C4 as stated is false at a concrete input: with an empty
client table, `update_client` and `delete_client` at id 5 crash on the
`None` returned by `Query.get` — the outcome is `Outcome.crash`, not
`Outcome.notFound`. -/
theorem missing_id_not_found_counterexample :
    editClient bobSession 5 "n" "h" "r" "x" "" [] = (Outcome.crash, []) ∧
    deleteClient bobSession 5 [] = (Outcome.crash, []) ∧
    Outcome.crash ≠ Outcome.notFound := by decide

/-- Claim C4 amended: for every session and every id that identifies
no client record, `update_client` and `delete_client` fail with an
unhandled missing-record error (a crash on the `None` dereference)
that leaves the store unchanged; no `NotFound` result is produced. -/
theorem missing_id_crashes (sess : Session) (id : Nat)
    (name house_address register_address notes next_follow : String)
    (store : List Client) (h : getClient store id = none) :
    editClient sess id name house_address register_address notes
      next_follow store = (.crash, store) ∧
    deleteClient sess id store = (.crash, store) := by
  constructor
  · simp [editClient, h]
  · simp [deleteClient, h]

/-- Concrete instance of the amended claim C4 theorem. -/
theorem missing_id_crashes_witness :
    getClient [clientOfBob] 99 = none ∧
    (editClient adminSession 99 "n" "h" "r" "x" "" [clientOfBob]
        = (.crash, [clientOfBob]) ∧
      deleteClient adminSession 99 [clientOfBob]
        = (.crash, [clientOfBob])) :=
  ⟨by decide,
   missing_id_crashes adminSession 99 "n" "h" "r" "x" "" [clientOfBob]
     (by decide)⟩

/-! ## Claim C5 -/

/-- Claim C5 as stated is false at a concrete input: a malformed
non-empty `next_follow` makes `create_client` abort with an unhandled
`ValueError` from `strptime` — the outcome is `Outcome.crash`, not
`Outcome.validationError`. -/
theorem malformed_date_counterexample :
    addClient bobSession "n" "h" "r" "x" "2024-13-99" 0 7 []
      = (Outcome.crash, []) ∧
    Outcome.crash ≠ Outcome.validationError := by decide

/-- Claim C5 amended: a non-empty `next_follow` that does not parse as
the literal `%Y/%m/%d` pattern makes `create_client` crash with an
unhandled parse error, leaving the store unchanged; likewise
`update_client` when the record exists and the session is permitted
(otherwise the handler already answered before parsing). -/
theorem malformed_date_crashes (sess : Session) (id : Nat)
    (name house_address register_address notes next_follow : String)
    (now freshId : Nat) (store : List Client)
    (h1 : pyStrip next_follow ≠ "")
    (h2 : strptimeYMD (pyStrip next_follow) = none) :
    addClient sess name house_address register_address notes next_follow
      now freshId store = (.crash, store) ∧
    (∀ c, getClient store id = some c →
      (sess.role = "admin" ∨ c.user_id = sess.user_id) →
      editClient sess id name house_address register_address notes
        next_follow store = (.crash, store)) := by
  constructor
  · simp [addClient, h1, h2]
  · intro c hc hperm
    have hforb : ¬(sess.role ≠ "admin" ∧ c.user_id ≠ sess.user_id) := by
      rcases hperm with h | h
      · exact fun hx => hx.1 h
      · exact fun hx => hx.2 h
    simp [editClient, hc, hforb, h1, h2]

/-- Concrete instance of the amended claim C5 theorem. -/
theorem malformed_date_crashes_witness :
    pyStrip "13/13/13" ≠ "" ∧
    strptimeYMD (pyStrip "13/13/13") = none ∧
    (addClient bobSession "n" "h" "r" "x" "13/13/13" 0 7 [clientOfBob]
        = (.crash, [clientOfBob]) ∧
      (∀ c, getClient [clientOfBob] 1 = some c →
        (bobSession.role = "admin" ∨ c.user_id = bobSession.user_id) →
        editClient bobSession 1 "n" "h" "r" "x" "13/13/13" [clientOfBob]
          = (.crash, [clientOfBob]))) :=
  ⟨by decide, by decide,
   malformed_date_crashes bobSession 1 "n" "h" "r" "x" "13/13/13" 0 7
     [clientOfBob] (by decide) (by decide)⟩

/-! ## Claim C6 -/

theorem nodup_usernames_append {store : List User} {u : User}
    (h : (usernames store).Nodup)
    (habs : ∀ v ∈ store, v.username ≠ u.username) :
    (usernames (store ++ [u])).Nodup := by
  have he : usernames (store ++ [u]) = usernames store ++ [u.username] := by
    simp [usernames]
  rw [he, List.nodup_append_comm, List.singleton_append]
  refine List.nodup_cons.mpr ⟨?_, h⟩
  intro hmem
  rcases List.mem_map.mp hmem with ⟨v, hv, hv2⟩
  exact habs v hv hv2

theorem commitUsers_nodup {old new : List User}
    (h : (usernames old).Nodup) :
    (usernames (commitUsers old new).2).Nodup := by
  unfold commitUsers
  split
  · rename_i hg
    exact hg
  · exact h

theorem nodup_usernames_eraseP {store : List User} {p : User → Bool}
    (h : (usernames store).Nodup) :
    (usernames (store.eraseP p)).Nodup := by
  have hsub : List.Sublist ((store.eraseP p).map (fun u => u.username))
      (store.map (fun u => u.username)) :=
    (List.eraseP_sublist store).map (fun u => u.username)
  exact List.Nodup.sublist hsub h

/-- Claim C6: starting from a user store whose usernames are pairwise
distinct, they remain pairwise distinct after any `create_user`,
`update_user`, `delete_user` or `bootstrap_admin` operation.  For
`update_user`, which performs no application-level check, this rests
on the `unique=True` declaration of the username column: a commit that
would duplicate a username raises and leaves the table unchanged. -/
theorem user_ops_preserve_username_uniqueness
    (hashPw : String → String) (sess : Session)
    (username password employee_id role : String)
    (username2 employee_id2 role2 password2 : String)
    (freshId id1 id2 freshId2 : Nat)
    (store : List User) (h : (usernames store).Nodup) :
    (usernames (addUser hashPw sess username password employee_id role
        freshId store).2).Nodup ∧
    (usernames (editUser hashPw sess id1 username2 employee_id2 role2
        password2 store).2).Nodup ∧
    (usernames (deleteUser sess id2 store).2).Nodup ∧
    (usernames (createAdmin hashPw freshId2 store).2).Nodup := by
  refine ⟨?_, ?_, ?_, ?_⟩
  · unfold addUser
    split
    · exact h
    · split
      · exact h
      · rename_i hfind
        refine nodup_usernames_append h ?_
        intro v hv
        have := List.find?_eq_none.mp hfind v hv
        simpa using this
  · unfold editUser
    split
    · exact h
    · split
      · exact h
      · exact commitUsers_nodup h
  · unfold deleteUser
    split
    · exact h
    · split
      · exact h
      · split
        · exact h
        · exact nodup_usernames_eraseP h
  · unfold createAdmin
    split
    · exact h
    · rename_i hfind
      refine nodup_usernames_append h ?_
      intro v hv
      have := List.find?_eq_none.mp hfind v hv
      simpa [adminRecord] using this

/-- Concrete instance of the claim C6 theorem. -/
theorem user_ops_preserve_username_uniqueness_witness :
    (usernames [bobUser, carolUser]).Nodup ∧
    ((usernames (addUser plainHash adminSession "dave" "pw" "E003"
        "user" 9 [bobUser, carolUser]).2).Nodup ∧
    (usernames (editUser plainHash adminSession 3 "bob" "E002" "user"
        "" [bobUser, carolUser]).2).Nodup ∧
    (usernames (deleteUser adminSession 2 [bobUser, carolUser]).2).Nodup ∧
    (usernames (createAdmin plainHash 9 [bobUser, carolUser]).2).Nodup) :=
  ⟨by decide,
   user_ops_preserve_username_uniqueness plainHash adminSession
     "dave" "pw" "E003" "user" "bob" "E002" "user" "" 9 3 2 9
     [bobUser, carolUser] (by decide)⟩

/-! ## Claim C7 -/

/-- Claim C7: a `create_user` call for a username that already exists
leaves the entire user store unchanged, and — the role gate being the
admin role the operation requires — is rejected with the conflict
re-render `"此帳號已存在"`. -/
theorem create_user_conflict (hashPw : String → String) (sess : Session)
    (username password employee_id role : String) (freshId : Nat)
    (store : List User) (h : ∃ u ∈ store, u.username = username) :
    (addUser hashPw sess username password employee_id role freshId
        store).2 = store ∧
    (sess.role = "admin" →
      addUser hashPw sess username password employee_id role freshId
        store = (.renderError "此帳號已存在", store)) := by
  have hfind : (store.find? (fun u => u.username == username)).isSome := by
    rw [List.find?_isSome]
    rcases h with ⟨u, hu, he⟩
    exact ⟨u, hu, by simp [he]⟩
  constructor
  · unfold addUser
    split
    · rfl
    · split
      · rfl
      · rename_i hnone
        rw [hnone] at hfind
        simp at hfind
  · intro hrole
    unfold addUser
    rw [if_neg (by simp [hrole])]
    rcases Option.isSome_iff_exists.mp hfind with ⟨u, hu⟩
    simp [hu]

/-- Concrete instance of the claim C7 theorem: adding a second "bob"
is rejected and the store keeps the original record. -/
theorem create_user_conflict_witness :
    (∃ u ∈ [bobUser, carolUser], u.username = "bob") ∧
    ((addUser plainHash adminSession "bob" "pw2" "E009" "user" 9
        [bobUser, carolUser]).2 = [bobUser, carolUser] ∧
      (adminSession.role = "admin" →
        addUser plainHash adminSession "bob" "pw2" "E009" "user" 9
          [bobUser, carolUser]
          = (.renderError "此帳號已存在", [bobUser, carolUser]))) :=
  ⟨by decide,
   create_user_conflict plainHash adminSession "bob" "pw2" "E009"
     "user" 9 [bobUser, carolUser] (by decide)⟩

/-! ## Claim C8 -/

/-- Claim C8: `bootstrap_admin` creates the fixed admin account
(username `"admin"`, role `"admin"`, hash of the fixed password
`"123456"`) when no user named `"admin"` exists, reports "already
exists" leaving the store unchanged when one does, and hence running
it twice yields the same store as running it once. -/
theorem bootstrap_admin_idempotent (h1 h2 : String → String)
    (f1 f2 : Nat) (store : List User) :
    (store.find? (fun u => u.username == "admin") = none →
      createAdmin h1 f1 store
        = (.message "管理員帳號已建立： admin / 123456",
           store ++ [adminRecord h1 f1])) ∧
    ((store.find? (fun u => u.username == "admin")).isSome →
      createAdmin h1 f1 store = (.message "管理員已存在！", store)) ∧
    (createAdmin h2 f2 (createAdmin h1 f1 store).2).2
      = (createAdmin h1 f1 store).2 := by
  refine ⟨?_, ?_, ?_⟩
  · intro hnone
    simp [createAdmin, hnone]
  · intro hsome
    rcases Option.isSome_iff_exists.mp hsome with ⟨u, hu⟩
    simp [createAdmin, hu]
  · rcases hfind : store.find? (fun u => u.username == "admin") with _ | u
    · have hsnd : (createAdmin h1 f1 store).2
          = store ++ [adminRecord h1 f1] := by
        simp [createAdmin, hfind]
      rw [hsnd]
      have hsome : ((store ++ [adminRecord h1 f1]).find?
          (fun u => u.username == "admin")).isSome := by
        rw [List.find?_isSome]
        exact ⟨adminRecord h1 f1, by simp, by simp [adminRecord]⟩
      rcases Option.isSome_iff_exists.mp hsome with ⟨u, hu⟩
      simp [createAdmin, hu, hfind]
    · simp [createAdmin, hfind]

/-- Concrete instance of the claim C8 theorem, covering both the
fresh-bootstrap and the already-exists hypotheses. -/
theorem bootstrap_admin_idempotent_witness :
    ([bobUser].find? (fun u => u.username == "admin") = none ∧
      createAdmin plainHash 9 [bobUser]
        = (.message "管理員帳號已建立： admin / 123456",
           [bobUser] ++ [adminRecord plainHash 9])) ∧
    (([bobUser, adminRecord plainHash 9].find?
        (fun u => u.username == "admin")).isSome ∧
      createAdmin plainHash 10 [bobUser, adminRecord plainHash 9]
        = (.message "管理員已存在！", [bobUser, adminRecord plainHash 9])) ∧
    (createAdmin plainHash 10 (createAdmin plainHash 9 [bobUser]).2).2
      = (createAdmin plainHash 9 [bobUser]).2 :=
  ⟨⟨by decide,
    (bootstrap_admin_idempotent plainHash plainHash 9 10 [bobUser]).1
      (by decide)⟩,
   ⟨by decide,
    (bootstrap_admin_idempotent plainHash plainHash 10 10
      [bobUser, adminRecord plainHash 9]).2.1 (by decide)⟩,
   (bootstrap_admin_idempotent plainHash plainHash 9 10 [bobUser]).2.2⟩

/-! ## Claim C9 -/

/-- Claim C9: with the `due_today` flag set, `list_clients` returns
exactly those visible and search-matching clients whose next-follow-up
day (time-of-day ignored) equals the day of the call timestamp `now`. -/
theorem due_today_filter (sess : Session) (q : String) (now : Nat)
    (store : List Client) (c : Client) :
    c ∈ listClients sess q true now store ↔
      c ∈ listClients sess q false now store ∧
        dateOf c.next_follow = dateOf now := by
  simp [listClients, List.mem_filter]

/-! ## Claim C10 -/

/-- Claim C10: `update_client` never changes any record's primary key,
`first_contact` timestamp or owner `user_id`, whatever inputs are
supplied; and when the submitted `next_follow` is empty after
stripping, it also leaves every record's `next_follow` unchanged. -/
theorem update_client_frame (sess : Session) (id : Nat)
    (name house_address register_address notes next_follow : String)
    (store : List Client) :
    ((editClient sess id name house_address register_address notes
        next_follow store).2.map
        (fun c => (c.id, c.first_contact, c.user_id))
      = store.map (fun c => (c.id, c.first_contact, c.user_id))) ∧
    (pyStrip next_follow = "" →
      (editClient sess id name house_address register_address notes
          next_follow store).2.map (fun c => (c.id, c.next_follow))
        = store.map (fun c => (c.id, c.next_follow))) := by
  constructor
  · unfold editClient
    split
    · rfl
    · rename_i client hget
      split
      · rfl
      · split
        · rfl
        · exact map_updateFirst_of_find? hget rfl
  · intro he
    unfold editClient
    split
    · rfl
    · rename_i client hget
      split
      · rfl
      · split
        · rfl
        · rename_i next_time hparse
          rw [Option.some_inj] at hparse
          subst hparse
          exact map_updateFirst_of_find? hget rfl

/-- Concrete instance of the claim C10 theorem: an owner's edit with
an empty follow-up field keeps ids, first contacts, owners and
follow-up dates of the whole table. -/
theorem update_client_frame_witness :
    ((editClient bobSession 1 "nm" "h" "r" "memo" ""
        [clientOfBob, clientOfCarol]).2.map
        (fun c => (c.id, c.first_contact, c.user_id))
      = [clientOfBob, clientOfCarol].map
        (fun c => (c.id, c.first_contact, c.user_id))) ∧
    (pyStrip "" = "" ∧
      (editClient bobSession 1 "nm" "h" "r" "memo" ""
          [clientOfBob, clientOfCarol]).2.map (fun c => (c.id, c.next_follow))
        = [clientOfBob, clientOfCarol].map (fun c => (c.id, c.next_follow))) :=
  ⟨(update_client_frame bobSession 1 "nm" "h" "r" "memo" ""
      [clientOfBob, clientOfCarol]).1,
   ⟨by decide,
    (update_client_frame bobSession 1 "nm" "h" "r" "memo" ""
      [clientOfBob, clientOfCarol]).2 (by decide)⟩⟩

end CRM
